import Mathlib

/-!
Verification of `src/vendas_farma_conde.py`: a daily batch job that fetches
invoiced orders, projects per-payment report rows, computes installment due
dates (the "circularização" step) and emails the resulting spreadsheet.

The Python source is shallowly embedded below.  Dates are modelled as
year/month/day triples over `Int`; pandas timestamp arithmetic
(`DateOffset(months=k)`, `.replace(day=15)`, `BDay(1)`, `.weekday()`) is
embedded with its documented semantics.  Money amounts (`value/100`) are
modelled over `Rat`.  Fallible steps (`int(nan)` raising `ValueError`) are
modelled with `Except`.
-/

/-- A calendar date.  Components are `Int` so that the month arithmetic of
`pandas.DateOffset` (floor division / modulo on a month index) is stated
directly. -/
structure Date where
  year : Int
  month : Int
  day : Int
deriving DecidableEq, Repr

/-- Gregorian leap-year rule (as used by `pandas` / `datetime`). -/
def isLeap (y : Int) : Bool :=
  (y % 4 == 0 && y % 100 != 0) || y % 400 == 0

/-- Number of days in a month of a given year. -/
def daysInMonth (y m : Int) : Int :=
  if m = 2 then (if isLeap y then 29 else 28)
  else if m = 4 ∨ m = 6 ∨ m = 9 ∨ m = 11 then 30
  else 31

/-- A structurally valid date: month in `1..12`, day within the month. -/
def Date.Valid (d : Date) : Prop :=
  1 ≤ d.month ∧ d.month ≤ 12 ∧ 1 ≤ d.day ∧ d.day ≤ daysInMonth d.year d.month

instance (d : Date) : Decidable d.Valid := by
  unfold Date.Valid; infer_instance

/-- Days since the epoch 1970-01-01 of a civil date (standard civil-calendar
day count; `1970-01-01 ↦ 0`). -/
def daysFromCivil (d : Date) : Int :=
  let y : Int := if d.month ≤ 2 then d.year - 1 else d.year
  let era : Int := y / 400
  let yoe : Int := y - era * 400
  let mp : Int := (d.month + 9) % 12
  let doy : Int := (153 * mp + 2) / 5 + d.day - 1
  let doe : Int := yoe * 365 + yoe / 4 - yoe / 100 + doy
  era * 146097 + doe - 719468

/-- Civil date of a day count since the epoch 1970-01-01 (inverse direction
of `daysFromCivil`). -/
def civilFromDays (z0 : Int) : Date :=
  let z : Int := z0 + 719468
  let era : Int := z / 146097
  let doe : Int := z - era * 146097
  let yoe : Int := (doe - doe / 1460 + doe / 36524 - doe / 146096) / 365
  let y : Int := yoe + era * 400
  let doy : Int := doe - (365 * yoe + yoe / 4 - yoe / 100)
  let mp : Int := (5 * doy + 2) / 153
  let dd : Int := doy - (153 * mp + 2) / 5 + 1
  let m : Int := if mp < 10 then mp + 3 else mp - 9
  ⟨if m ≤ 2 then y + 1 else y, m, dd⟩

/-- `Timestamp.weekday()` of pandas / Python `datetime`: Monday = 0 …
Sunday = 6 (1970-01-01 was a Thursday, weekday 3). -/
def weekday (d : Date) : Int :=
  (daysFromCivil d + 3) % 7

/-- The calendar day after `d` (day-of-month increment with month/year
rollover). -/
def nextDay (d : Date) : Date :=
  if d.day < daysInMonth d.year d.month then ⟨d.year, d.month, d.day + 1⟩
  else if d.month < 12 then ⟨d.year, d.month + 1, 1⟩
  else ⟨d.year + 1, 1, 1⟩

/-- `d + Timedelta(days = n)` for `n ≥ 0`. -/
def addDaysN (d : Date) : Nat → Date
  | 0 => d
  | n + 1 => addDaysN (nextDay d) n

/-- `d + pandas.DateOffset(months = k)`: shift the month index, clamping the
day-of-month down to the length of the target month. -/
def addMonthsPandas (d : Date) (k : Int) : Date :=
  let t : Int := d.year * 12 + (d.month - 1) + k
  let y : Int := t / 12
  let m : Int := t % 12 + 1
  ⟨y, m, min d.day (daysInMonth y m)⟩

/-- `Timestamp.replace(day = k)`. -/
def replaceDay (d : Date) (k : Int) : Date :=
  ⟨d.year, d.month, k⟩

/-- `d + pandas.tseries.offsets.BDay(1)`: the next business day strictly
after `d` (Mon–Thu ↦ +1, Fri ↦ +3, Sat ↦ +2, Sun ↦ +1). -/
def bday1 (d : Date) : Date :=
  if weekday d = 4 then addDaysN d 3
  else if weekday d = 5 then addDaysN d 2
  else addDaysN d 1

/-- Source lines 250–253 of `circularizar`: the due date of installment `p`
(1-based) for invoiced date `inv` is `inv + DateOffset(months=p)` with the
day replaced by 15, then `+ BDay(1)` whenever `weekday() >= 5`. -/
def dueDate (inv : Date) (p : Int) : Date :=
  let d := replaceDay (addMonthsPandas inv p) 15
  if 5 ≤ weekday d then bday1 d else d

/-- Modelled from the spec's words (for the refinement claim about the due
date rule): due date = invoiced date plus `p` months with day-of-month
forced to 15; if that date is a Saturday advance two days to Monday, if a
Sunday advance one day to Monday. -/
def dueDateSpec (inv : Date) (p : Int) : Date :=
  let d := replaceDay (addMonthsPandas inv p) 15
  if weekday d = 5 then addDaysN d 2
  else if weekday d = 6 then addDaysN d 1
  else d

/-- Zero-padded two-digit rendering of a day or month number. -/
def pad2 (n : Int) : String :=
  if n < 10 then "0" ++ toString n else toString n

/-- `strftime("%d/%m/%Y")` on a date. -/
def renderDate (d : Date) : String :=
  pad2 d.day ++ "/" ++ pad2 d.month ++ "/" ++ toString d.year

/-- `limpar_emails` (source lines 96–105): drop falsy entries, strip
whitespace, drop entries that become empty or are the literal string
`"nan"` case-insensitively; keep the stripped text. -/
def limpar_emails : List String → List String
  | [] => []
  | e :: rest =>
    if e = "" then limpar_emails rest
    else
      let eStr := e.trim
      if eStr = "" ∨ eStr.toLower = "nan" then limpar_emails rest
      else eStr :: limpar_emails rest

/-- A seller record as built by `carregar_sellers`. -/
structure Seller where
  id : String
  display : String
  emailTo : List String
  emailCc : List String
deriving DecidableEq, Repr

/-- Observable outcome of `enviar_email`: either the warning path (no valid
`emailTo` recipient, nothing sent, normal return) or a send to the given
To/Cc lists. -/
inductive EmailOutcome where
  | warnedNoRecipients
  | sent (toL ccL : List String)
deriving DecidableEq, Repr

/-- `enviar_email` (source lines 265–296), reduced to its recipient-handling
behaviour: clean both lists, and if the cleaned To list is empty log a
warning and return without sending. -/
def enviar_email (seller : Seller) : EmailOutcome :=
  let toL := limpar_emails seller.emailTo
  let ccL := limpar_emails seller.emailCc
  if toL = [] then .warnedNoRecipients
  else .sent toL ccL

/-- `formatar_data_curta` (source lines 108–116).  The stdlib call
`datetime.fromisoformat(...)` followed by `astimezone` is abstracted as the
parameter `parse`, which returns the absolute instant in epoch seconds
(`none` models a parse exception, caught by the bare `except`).  On success
the source renders the instant's wall-clock date in UTC-3 as dd/mm/yyyy. -/
def formatar_data_curta (parse : String → Option Int) : Option String → String
  | none => ""
  | some s =>
    if s = "" then ""
    else
      match parse (s.replace "Z" "+00:00") with
      | none => s
      | some t => renderDate (civilFromDays ((t - 10800) / 86400))

/-- One entry of an order's `totals` list (`value` in integer minor units;
either key may be absent in the JSON). -/
structure TotalEntry where
  id : Option String
  value : Option Int
deriving DecidableEq, Repr

/-- `get_total` (source lines 209–210): value of the first totals entry
tagged `code`, divided by 100; `0.0` when no entry matches. -/
def get_total (totals : List TotalEntry) (code : String) : Rat :=
  match totals.find? (fun t => t.id == some code) with
  | some t => ((t.value.getD 0 : Int) : Rat) / 100
  | none => 0

/-- One payment inside a transaction (`p.get("installments")`). -/
structure PaymentT where
  installments : Option Int
deriving DecidableEq, Repr

/-- One transaction of an order's payment data. -/
structure TransactionT where
  payments : List PaymentT
deriving DecidableEq, Repr

/-- One entry of an order's `sellers` list (`s.get("id")`). -/
structure SellerRef where
  id : Option String
deriving DecidableEq, Repr

/-- The slice of an order detail record read by `gerar_linhas`. -/
structure OrderDetail where
  sellers : List SellerRef
  totals : List TotalEntry
  invoicedDate : Option String
  orderId : Option String
  transactions : List TransactionT
deriving DecidableEq, Repr

/-- A raw report row as emitted by `gerar_linhas` (the dict of source lines
224–232). -/
structure RawRow where
  faturadoEm : String
  pedido : Option String
  seller : String
  totalItens : Rat
  frete : Rat
  valorTotal : Rat
  parcelas : Option Int
deriving DecidableEq, Repr

/-- `gerar_linhas` (source lines 213–233): skip the order when the seller id
is not among the order's seller-participant ids, otherwise emit one row per
(transaction, payment) pair carrying the order-level totals. -/
def gerar_linhas (parse : String → Option Int) (order : OrderDetail)
    (seller : Seller) : List RawRow :=
  if some seller.id ∈ order.sellers.map SellerRef.id then
    let itens := get_total order.totals "Items"
    let frete := get_total order.totals "Shipping"
    (order.transactions.map (fun tx =>
      tx.payments.map (fun p =>
        { faturadoEm := formatar_data_curta parse order.invoicedDate
          pedido := order.orderId
          seller := seller.display
          totalItens := itens
          frete := frete
          valorTotal := itens + frete
          parcelas := p.installments }))).flatten
  else []

/-- `listar_resumo` (source lines 159–190).  The paged HTTP endpoint is the
parameter `api` (`none` models a non-200 status, `some l` a 200 page with
item list `l`).  Returns the accumulated orders together with the number of
requests issued; `fuel` bounds the `while True` loop (each loop iteration
issues exactly one request). -/
def listar_resumo (api : Nat → Option (List α)) : Nat → Nat → List α × Nat
  | 0, _ => ([], 0)
  | fuel + 1, page =>
    match api page with
    | none => ([], 1)
    | some lista =>
      if lista.isEmpty then ([], 1)
      else if lista.length < 100 then (lista, 1)
      else
        let rest := listar_resumo api fuel (page + 1)
        (lista ++ rest.1, rest.2 + 1)

/-- A report row as reloaded by `circularizar` (source lines 241–242): the
`Faturado em` column parsed day-first into a date, the `Parcelas` column a
number or an empty cell.  `parcelas = none` models an empty Excel cell,
which pandas reads as float NaN. -/
structure ReportRow where
  faturadoEm : Date
  pedido : String
  seller : String
  totalItens : Rat
  frete : Rat
  valorTotal : Rat
  parcelas : Option Int
deriving DecidableEq, Repr

/-- A circularized row: the report row plus the 12 `Parcela i` columns
(index 0 of the list is column `Parcela 1`). -/
structure CircRow where
  row : ReportRow
  parcelaCols : List (Option String)
deriving DecidableEq, Repr

/-- Python truthiness of the `Parcelas` cell in `if not r["Parcelas"]`
(source line 248): `0`/`0.0` is falsy, any other number is truthy, and
float NaN (an empty cell) is also truthy. -/
def parcelasTruthy : Option Int → Bool
  | none => true
  | some n => n != 0

/-- The 12 due-date columns computed for one row (source lines 250–254):
column `p+1` is filled for `p` in `range(int(min(n, 12)))`. -/
def circRowCols (inv : Date) (k : Int) : List (Option String) :=
  (List.range 12).map fun (i : Nat) =>
    if (i : Int) < k then some (renderDate (dueDate inv ((i : Int) + 1))) else none

/-- The per-row body of `circularizar`'s loop (source lines 247–254).  A
falsy `Parcelas` cell is skipped (all 12 columns stay `None`); a truthy NaN
cell reaches `int(min(nan, 12))`, which raises `ValueError`; a truthy
number `n` fills columns `1..min(n, 12)`. -/
def processRow (r : ReportRow) : Except String CircRow :=
  if parcelasTruthy r.parcelas then
    match r.parcelas with
    | none => Except.error "cannot convert float NaN to integer"
    | some n => Except.ok ⟨r, circRowCols r.faturadoEm (min n 12)⟩
  else Except.ok ⟨r, List.replicate 12 none⟩

/-- `DataFrame.drop_duplicates()`: keep the first occurrence of every
distinct row, preserving order. -/
def dedupAux [DecidableEq α] : List α → List α → List α
  | _, [] => []
  | seen, x :: xs =>
    if x ∈ seen then dedupAux seen xs else x :: dedupAux (x :: seen) xs

/-- `DataFrame.drop_duplicates()` on a row list. -/
def dropDuplicates [DecidableEq α] (l : List α) : List α :=
  dedupAux [] l

/-- `circularizar` (source lines 240–258) on the reloaded row set:
deduplicate, then run the due-date loop over every row; a `ValueError`
raised on any row aborts the whole call. -/
def circularizar (rows : List ReportRow) : Except String (List CircRow) :=
  (dropDuplicates rows).mapM processRow

/-- The month index of a date (months since year 0), used to state that due
dates advance by exactly one calendar month. -/
def monthIdx (d : Date) : Int :=
  d.year * 12 + d.month

/-- Strict chronological order on calendar dates (lexicographic on
year, month, day). -/
def dateLex (d1 d2 : Date) : Prop :=
  d1.year < d2.year ∨
    (d1.year = d2.year ∧
      (d1.month < d2.month ∨ (d1.month = d2.month ∧ d1.day < d2.day)))

/-- An always-failing ISO parser (models `fromisoformat` raising on every
input), used to exercise `formatar_data_curta`'s fallback branch. -/
def pFail : String → Option Int := fun _ => none

/-- Epoch-second instant of 2024-06-28T12:00:00Z. -/
def tOk : Int := 1719576000

/-- An ISO parser resolving every input to the instant `tOk`, used to
exercise `formatar_data_curta`'s success branch. -/
def pOk : String → Option Int :=
  fun _ => some tOk

/-- A concrete order detail (seller "fc" participates, Items total 10.00,
Shipping total 2.00, one transaction with one 3-installment payment). -/
def ord0 : OrderDetail :=
  ⟨[⟨some "fc"⟩], [⟨some "Items", some 1000⟩, ⟨some "Shipping", some 200⟩],
    none, some "v1", [⟨[⟨some 3⟩]⟩]⟩

/-- A concrete seller participating in `ord0`. -/
def sel0 : Seller :=
  ⟨"fc", "FC", [], []⟩

/-- The single row `gerar_linhas` emits for `ord0` and `sel0`. -/
def row0 : RawRow :=
  ⟨formatar_data_curta pFail ord0.invoicedDate, ord0.orderId, sel0.display,
    get_total ord0.totals "Items", get_total ord0.totals "Shipping",
    get_total ord0.totals "Items" + get_total ord0.totals "Shipping", some 3⟩

/-- A simulated paged order API returning 100, 100 and 37 items on pages
1, 2 and 3. -/
def api237 : Nat → Option (List Nat) :=
  fun p =>
    if p = 1 then some (List.replicate 100 0)
    else if p = 2 then some (List.replicate 100 0)
    else if p = 3 then some (List.replicate 37 0)
    else some []

/-! ## Helper lemmas about the date arithmetic -/

theorem weekday_nonneg (d : Date) : 0 ≤ weekday d := by
  unfold weekday
  exact Int.emod_nonneg _ (by norm_num)

theorem weekday_lt_seven (d : Date) : weekday d < 7 := by
  unfold weekday
  exact Int.emod_lt_of_pos _ (by norm_num)

theorem addMonthsPandas_month_bounds (d : Date) (k : Int) :
    1 ≤ (addMonthsPandas d k).month ∧ (addMonthsPandas d k).month ≤ 12 := by
  have hm : (addMonthsPandas d k).month = (d.year * 12 + (d.month - 1) + k) % 12 + 1 := rfl
  have h1 : 0 ≤ (d.year * 12 + (d.month - 1) + k) % 12 := Int.emod_nonneg _ (by norm_num)
  have h2 : (d.year * 12 + (d.month - 1) + k) % 12 < 12 :=
    Int.emod_lt_of_pos _ (by norm_num)
  omega

theorem monthIdx_addMonthsPandas (d : Date) (k : Int) :
    monthIdx (addMonthsPandas d k) = d.year * 12 + d.month + k := by
  have hy : (addMonthsPandas d k).year = (d.year * 12 + (d.month - 1) + k) / 12 := rfl
  have hm : (addMonthsPandas d k).month = (d.year * 12 + (d.month - 1) + k) % 12 + 1 := rfl
  have hdm := Int.ediv_add_emod (d.year * 12 + (d.month - 1) + k) 12
  unfold monthIdx
  omega

theorem daysInMonth_ge_28 (y m : Int) : 28 ≤ daysInMonth y m := by
  unfold daysInMonth
  split_ifs <;> norm_num

theorem nextDay_mk (y m dd : Int) (h : dd < daysInMonth y m) :
    nextDay ⟨y, m, dd⟩ = ⟨y, m, dd + 1⟩ := by
  show (if dd < daysInMonth y m then (⟨y, m, dd + 1⟩ : Date)
        else if m < 12 then ⟨y, m + 1, 1⟩ else ⟨y + 1, 1, 1⟩) = ⟨y, m, dd + 1⟩
  rw [if_pos h]

theorem addDaysN_one (d : Date) : addDaysN d 1 = nextDay d := rfl

theorem addDaysN_two (d : Date) : addDaysN d 2 = nextDay (nextDay d) := rfl

theorem dueDate_shape (inv : Date) (p : Int) :
    (dueDate inv p).year = (addMonthsPandas inv p).year ∧
    (dueDate inv p).month = (addMonthsPandas inv p).month ∧
    ((dueDate inv p).day = 15 ∨ (dueDate inv p).day = 16 ∨ (dueDate inv p).day = 17) := by
  have h28 : 28 ≤ daysInMonth (addMonthsPandas inv p).year (addMonthsPandas inv p).month :=
    daysInMonth_ge_28 _ _
  have h0 := weekday_nonneg (replaceDay (addMonthsPandas inv p) 15)
  have h7 := weekday_lt_seven (replaceDay (addMonthsPandas inv p) 15)
  have hrd : replaceDay (addMonthsPandas inv p) 15 =
      ⟨(addMonthsPandas inv p).year, (addMonthsPandas inv p).month, 15⟩ := rfl
  have e1 : nextDay ⟨(addMonthsPandas inv p).year, (addMonthsPandas inv p).month, 15⟩ =
      ⟨(addMonthsPandas inv p).year, (addMonthsPandas inv p).month, 16⟩ := by
    rw [nextDay_mk _ _ _ (by omega)]; norm_num
  have e2 : nextDay ⟨(addMonthsPandas inv p).year, (addMonthsPandas inv p).month, 16⟩ =
      ⟨(addMonthsPandas inv p).year, (addMonthsPandas inv p).month, 17⟩ := by
    rw [nextDay_mk _ _ _ (by omega)]; norm_num
  have hdue : dueDate inv p =
      (if 5 ≤ weekday (replaceDay (addMonthsPandas inv p) 15) then
        bday1 (replaceDay (addMonthsPandas inv p) 15)
      else replaceDay (addMonthsPandas inv p) 15) := rfl
  rcases lt_or_le (weekday (replaceDay (addMonthsPandas inv p) 15)) 5 with hw | hw
  · rw [hdue, if_neg (by omega), hrd]
    exact ⟨rfl, rfl, Or.inl rfl⟩
  · have hw56 : weekday (replaceDay (addMonthsPandas inv p) 15) = 5 ∨
        weekday (replaceDay (addMonthsPandas inv p) 15) = 6 := by omega
    rcases hw56 with hw5 | hw6
    · rw [hdue, if_pos (by omega)]
      unfold bday1
      rw [if_neg (by omega), if_pos hw5, addDaysN_two, hrd, e1, e2]
      exact ⟨rfl, rfl, Or.inr (Or.inr rfl)⟩
    · rw [hdue, if_pos (by omega)]
      unfold bday1
      rw [if_neg (by omega), if_neg (by omega), addDaysN_one, hrd, e1]
      exact ⟨rfl, rfl, Or.inr (Or.inl rfl)⟩

/-- C3: for every row and installment index `p`, the `p`-th due date computed
by `circularizar` equals the invoiced date plus `p` months with day-of-month
forced to 15, advanced to the following Monday when that date falls on a
Saturday or Sunday (the rule `dueDateSpec`, modelled from the spec's words);
in particular, for invoiced date 2024-06-28 the first due date is
2024-07-15, rendered "15/07/2024". -/
theorem dueDate_refines_spec :
    (∀ (inv : Date) (p : Int), dueDate inv p = dueDateSpec inv p) ∧
    dueDate ⟨2024, 6, 28⟩ 1 = ⟨2024, 7, 15⟩ ∧
    renderDate (dueDate ⟨2024, 6, 28⟩ 1) = "15/07/2024" := by
  refine ⟨fun inv p => ?_, by decide, by decide⟩
  have h0 := weekday_nonneg (replaceDay (addMonthsPandas inv p) 15)
  have h7 := weekday_lt_seven (replaceDay (addMonthsPandas inv p) 15)
  have hdue : dueDate inv p =
      (if 5 ≤ weekday (replaceDay (addMonthsPandas inv p) 15) then
        bday1 (replaceDay (addMonthsPandas inv p) 15)
      else replaceDay (addMonthsPandas inv p) 15) := rfl
  have hspec : dueDateSpec inv p =
      (if weekday (replaceDay (addMonthsPandas inv p) 15) = 5 then
        addDaysN (replaceDay (addMonthsPandas inv p) 15) 2
      else if weekday (replaceDay (addMonthsPandas inv p) 15) = 6 then
        addDaysN (replaceDay (addMonthsPandas inv p) 15) 1
      else replaceDay (addMonthsPandas inv p) 15) := rfl
  rw [hdue, hspec]
  unfold bday1
  split_ifs <;> first | rfl | omega

/-- C4: due dates advance by exactly one calendar month per installment
index, are strictly increasing in chronological order, and always fall on
day 15, 16 or 17 of their month. -/
theorem dueDate_monotone_month_step (inv : Date) (p : Int) :
    ((dueDate inv p).day = 15 ∨ (dueDate inv p).day = 16 ∨ (dueDate inv p).day = 17) ∧
    monthIdx (dueDate inv (p + 1)) = monthIdx (dueDate inv p) + 1 ∧
    dateLex (dueDate inv p) (dueDate inv (p + 1)) := by
  obtain ⟨hy1, hm1, hd1⟩ := dueDate_shape inv p
  obtain ⟨hy2, hm2, hd2⟩ := dueDate_shape inv (p + 1)
  have b1 := addMonthsPandas_month_bounds inv p
  have b2 := addMonthsPandas_month_bounds inv (p + 1)
  have i1 := monthIdx_addMonthsPandas inv p
  have i2 := monthIdx_addMonthsPandas inv (p + 1)
  unfold monthIdx at *
  refine ⟨hd1, by omega, ?_⟩
  unfold dateLex
  omega

/-- C1 (code bug): a zero installment count is falsy, so the row is skipped
and all 12 due-date columns stay null; but a null installment count (an
empty cell, float NaN) is truthy in Python, so the row is not skipped and
`int(min(nan, 12))` raises `ValueError`, aborting the whole `circularizar`
call instead of leaving the columns null. -/
theorem circularizar_null_parcelas_raises :
    processRow ⟨⟨2024, 6, 28⟩, "o1", "S", 10, 2, 12, some 0⟩ =
      Except.ok ⟨⟨⟨2024, 6, 28⟩, "o1", "S", 10, 2, 12, some 0⟩, List.replicate 12 none⟩ ∧
    processRow ⟨⟨2024, 6, 28⟩, "o1", "S", 10, 2, 12, none⟩ =
      Except.error "cannot convert float NaN to integer" ∧
    circularizar [⟨⟨2024, 6, 28⟩, "o1", "S", 10, 2, 12, none⟩] =
      Except.error "cannot convert float NaN to integer" :=
  ⟨rfl, rfl, rfl⟩

theorem circRowCols_getD (inv : Date) (k : Int) (i : Nat) (h : i < 12) :
    (circRowCols inv k).getD i none =
      if (i : Int) < k then some (renderDate (dueDate inv ((i : Int) + 1))) else none := by
  unfold circRowCols
  rw [List.getD_eq_getElem?_getD, List.getElem?_map, List.getElem?_range h]
  rfl

/-- C2: for a row with a non-null, non-zero installment count `n`, the loop
populates exactly the due-date columns `Parcela 1 .. Parcela min(n, 12)`
(0-based list index `i` is column `i + 1`); every column beyond that index
stays empty, and there are only 12 columns. -/
theorem processRow_populates_min_cap (r : ReportRow) (n : Int)
    (hp : r.parcelas = some n) (hn : n ≠ 0) :
    ∃ c : CircRow, processRow r = Except.ok c ∧ c.row = r ∧
      c.parcelaCols.length = 12 ∧
      (∀ i : Nat, i < 12 →
        (c.parcelaCols.getD i none ≠ none ↔ (i : Int) + 1 ≤ min n 12)) ∧
      (∀ i : Nat, i < 12 → (i : Int) + 1 ≤ min n 12 →
        c.parcelaCols.getD i none =
          some (renderDate (dueDate r.faturadoEm ((i : Int) + 1)))) := by
  refine ⟨⟨r, circRowCols r.faturadoEm (min n 12)⟩, ?_, rfl, ?_, ?_, ?_⟩
  · unfold processRow
    rw [hp]
    simp [parcelasTruthy, hn]
  · unfold circRowCols
    simp
  · intro i hi
    rw [circRowCols_getD _ _ _ hi]
    split_ifs with hlt
    · exact iff_of_true (by simp) (by omega)
    · exact iff_of_false (by simp) (by omega)
  · intro i hi hle
    rw [circRowCols_getD _ _ _ hi, if_pos (by omega)]

/-- Witness for C2 at a concrete row with installment count 3. -/
theorem processRow_populates_min_cap_witness :
    ∃ c : CircRow,
      processRow ⟨⟨2024, 6, 28⟩, "o2", "S", 10, 2, 12, some 3⟩ = Except.ok c ∧
      c.row = ⟨⟨2024, 6, 28⟩, "o2", "S", 10, 2, 12, some 3⟩ ∧
      c.parcelaCols.length = 12 ∧
      (∀ i : Nat, i < 12 →
        (c.parcelaCols.getD i none ≠ none ↔ (i : Int) + 1 ≤ min 3 12)) ∧
      (∀ i : Nat, i < 12 → (i : Int) + 1 ≤ min 3 12 →
        c.parcelaCols.getD i none =
          some (renderDate (dueDate ⟨2024, 6, 28⟩ ((i : Int) + 1)))) :=
  processRow_populates_min_cap _ 3 rfl (by norm_num)

/-- C5: if the seller's id is not among the ids of the order's seller
participants, `gerar_linhas` returns the empty list. -/
theorem gerar_linhas_absent_seller (parse : String → Option Int)
    (order : OrderDetail) (seller : Seller)
    (h : some seller.id ∉ order.sellers.map SellerRef.id) :
    gerar_linhas parse order seller = [] := by
  unfold gerar_linhas
  rw [if_neg h]

/-- Witness for C5: a seller whose id is absent from the order's `sellers`
list yields zero rows. -/
theorem gerar_linhas_absent_seller_witness :
    gerar_linhas pFail
      ⟨[⟨some "outro"⟩], [⟨some "Items", some 1000⟩], some "2024-06-28T12:00:00Z",
        some "v1", [⟨[⟨some 3⟩]⟩]⟩
      ⟨"farmaconde", "Farma Conde", [], []⟩ = [] :=
  gerar_linhas_absent_seller pFail _ _ (by decide)

theorem mem_gerar_linhas (parse : String → Option Int) (order : OrderDetail)
    (seller : Seller) (row : RawRow) (h : row ∈ gerar_linhas parse order seller) :
    row = { faturadoEm := formatar_data_curta parse order.invoicedDate
            pedido := order.orderId
            seller := seller.display
            totalItens := get_total order.totals "Items"
            frete := get_total order.totals "Shipping"
            valorTotal := get_total order.totals "Items" + get_total order.totals "Shipping"
            parcelas := row.parcelas } := by
  unfold gerar_linhas at h
  by_cases hs : some seller.id ∈ order.sellers.map SellerRef.id
  · rw [if_pos hs] at h
    simp only [List.mem_flatten, List.mem_map] at h
    obtain ⟨l, ⟨tx, htx, rfl⟩, hrow⟩ := h
    obtain ⟨p, hp, rfl⟩ := List.mem_map.mp hrow
    rfl
  · rw [if_neg hs] at h
    exact absurd h (List.not_mem_nil _)

/-- C6: every row emitted by `gerar_linhas` satisfies
`Valor_total = Total_itens + Frete`, and any two rows emitted for the same
order agree on `Total_itens`, `Frete` and `Valor_total` (indeed on every
field except the installment count). -/
theorem gerar_linhas_totals (parse : String → Option Int) (order : OrderDetail)
    (seller : Seller) (row : RawRow) (h : row ∈ gerar_linhas parse order seller) :
    row.valorTotal = row.totalItens + row.frete ∧
    row.totalItens = get_total order.totals "Items" ∧
    row.frete = get_total order.totals "Shipping" ∧
    ∀ row' ∈ gerar_linhas parse order seller,
      row'.totalItens = row.totalItens ∧ row'.frete = row.frete ∧
      row'.valorTotal = row.valorTotal ∧
      row' = { row with parcelas := row'.parcelas } := by
  obtain ⟨fa, pe, se, ti, fr, vt, pa⟩ := row
  have h1 := mem_gerar_linhas parse order seller _ h
  injection h1 with e1 e2 e3 e4 e5 e6 e7
  subst e1; subst e2; subst e3; subst e4; subst e5; subst e6
  refine ⟨rfl, rfl, rfl, fun row' h' => ?_⟩
  obtain ⟨fa', pe', se', ti', fr', vt', pa'⟩ := row'
  have h2 := mem_gerar_linhas parse order seller _ h'
  injection h2 with f1 f2 f3 f4 f5 f6 f7
  subst f1; subst f2; subst f3; subst f4; subst f5; subst f6
  exact ⟨rfl, rfl, rfl, rfl⟩

/-- Witness for C6 at a concrete order: its one row satisfies
`Valor_total = Total_itens + Frete`. -/
theorem gerar_linhas_totals_witness :
    row0.valorTotal = row0.totalItens + row0.frete :=
  (gerar_linhas_totals pFail ord0 sel0 row0 (by
    unfold gerar_linhas
    rw [if_pos (by decide)]
    exact List.mem_singleton_self row0)).1

theorem listar_step_none (api : Nat → Option (List α)) (fuel page : Nat)
    (h : api page = none) : listar_resumo api (fuel + 1) page = ([], 1) := by
  unfold listar_resumo
  rw [h]

theorem listar_step_empty (api : Nat → Option (List α)) (fuel page : Nat)
    (h : api page = some []) : listar_resumo api (fuel + 1) page = ([], 1) := by
  unfold listar_resumo
  rw [h]
  rfl

theorem listar_step_short (api : Nat → Option (List α)) (fuel page : Nat)
    (l : List α) (h : api page = some l) (hne : l ≠ []) (hlen : l.length < 100) :
    listar_resumo api (fuel + 1) page = (l, 1) := by
  unfold listar_resumo
  rw [h]
  simp [List.isEmpty_iff, hne, hlen]

theorem listar_step_full (api : Nat → Option (List α)) (fuel page : Nat)
    (l : List α) (h : api page = some l) (hlen : 100 ≤ l.length) :
    listar_resumo api (fuel + 1) page =
      (l ++ (listar_resumo api fuel (page + 1)).1,
       (listar_resumo api fuel (page + 1)).2 + 1) := by
  have hne : l ≠ [] := by
    rintro rfl
    simp at hlen
  have hnlt : ¬ l.length < 100 := by omega
  generalize hg : listar_resumo api fuel (page + 1) = r
  unfold listar_resumo
  rw [h]
  simp [List.isEmpty_iff, hne, hnlt, hg]

/-- C7: `listar_resumo` stops paginating exactly when a page returns a
non-200 status, an empty list, or fewer than 100 items, returning all
summaries accumulated so far; with pages of 100, 100 and 37 items it
returns the 237 accumulated summaries after exactly 3 requests. -/
theorem listar_resumo_pagination :
    (∀ (api : Nat → Option (List Nat)) (fuel page : Nat),
      api page = none → listar_resumo api (fuel + 1) page = ([], 1)) ∧
    (∀ (api : Nat → Option (List Nat)) (fuel page : Nat),
      api page = some [] → listar_resumo api (fuel + 1) page = ([], 1)) ∧
    (∀ (api : Nat → Option (List Nat)) (fuel page : Nat) (l : List Nat),
      api page = some l → l ≠ [] → l.length < 100 →
      listar_resumo api (fuel + 1) page = (l, 1)) ∧
    (∀ (api : Nat → Option (List Nat)) (fuel page : Nat) (l : List Nat),
      api page = some l → 100 ≤ l.length →
      listar_resumo api (fuel + 1) page =
        (l ++ (listar_resumo api fuel (page + 1)).1,
         (listar_resumo api fuel (page + 1)).2 + 1)) ∧
    (∀ (api : Nat → Option (List Nat)) (l1 l2 l3 : List Nat) (k : Nat),
      api 1 = some l1 → l1.length = 100 → api 2 = some l2 → l2.length = 100 →
      api 3 = some l3 → l3.length = 37 →
      listar_resumo api (k + 3) 1 = (l1 ++ (l2 ++ l3), 3) ∧
        (l1 ++ (l2 ++ l3)).length = 237) := by
  refine ⟨listar_step_none, listar_step_empty, listar_step_short, listar_step_full, ?_⟩
  intro api l1 l2 l3 k h1 hl1 h2 hl2 h3 hl3
  have e3 : listar_resumo api (k + 1) 3 = (l3, 1) :=
    listar_step_short api k 3 l3 h3 (by rintro rfl; simp at hl3) (by omega)
  have e2 : listar_resumo api (k + 1 + 1) 2 = (l2 ++ l3, 2) := by
    rw [listar_step_full api (k + 1) 2 l2 h2 (by omega), e3]
  have e1 : listar_resumo api (k + 1 + 1 + 1) 1 = (l1 ++ (l2 ++ l3), 3) := by
    rw [listar_step_full api (k + 1 + 1) 1 l1 h1 (by omega), e2]
  exact ⟨e1, by simp [hl1, hl2, hl3]⟩

/-- Witness for C7: a simulated API with pages of 100, 100 and 37 items
yields 237 summaries in exactly 3 requests. -/
theorem listar_resumo_pagination_witness :
    listar_resumo api237 10 1 =
      (List.replicate 100 0 ++ (List.replicate 100 0 ++ List.replicate 37 0), 3) ∧
    (List.replicate 100 (0 : Nat) ++
      (List.replicate 100 0 ++ List.replicate 37 0)).length = 237 :=
  listar_resumo_pagination.2.2.2.2 api237 _ _ _ 7 rfl (by simp) rfl (by simp) rfl (by simp)

theorem dedupAux_nodup_disjoint [DecidableEq α] (l : List α) :
    ∀ seen : List α, (dedupAux seen l).Nodup ∧ ∀ x ∈ dedupAux seen l, x ∉ seen := by
  induction l with
  | nil =>
    intro seen
    exact ⟨List.nodup_nil, by intro x hx; cases hx⟩
  | cons x xs ih =>
    intro seen
    unfold dedupAux
    split_ifs with hx
    · exact ih seen
    · obtain ⟨hnd, hdis⟩ := ih (x :: seen)
      refine ⟨List.nodup_cons.mpr
        ⟨fun hmem => (hdis x hmem) (List.mem_cons_self x seen), hnd⟩, ?_⟩
      intro y hy
      rcases List.mem_cons.mp hy with rfl | hy'
      · exact hx
      · exact fun hseen => (hdis y hy') (List.mem_cons_of_mem _ hseen)

theorem dedupAux_of_nodup [DecidableEq α] (l : List α) :
    ∀ seen : List α, l.Nodup → (∀ x ∈ l, x ∉ seen) → dedupAux seen l = l := by
  induction l with
  | nil => intro seen _ _; rfl
  | cons x xs ih =>
    intro seen hnd hdis
    unfold dedupAux
    rw [if_neg (hdis x (List.mem_cons_self x xs))]
    congr 1
    apply ih
    · exact (List.nodup_cons.mp hnd).2
    · intro y hy hmem
      rcases List.mem_cons.mp hmem with rfl | hseen
      · exact (List.nodup_cons.mp hnd).1 hy
      · exact hdis y (List.mem_cons_of_mem _ hy) hseen

theorem dropDuplicates_idem [DecidableEq α] (l : List α) :
    dropDuplicates (dropDuplicates l) = dropDuplicates l := by
  unfold dropDuplicates
  exact dedupAux_of_nodup _ [] (dedupAux_nodup_disjoint l []).1
    (by intro x _ hx; cases hx)

/-- C8: the due-date engine is idempotent on the deduplicated row set —
running `circularizar` on the already-deduplicated rows produces exactly the
output of running it on the original rows, so a second run over the same
`ReportRow` set yields identical `CircularizedRow` output. -/
theorem circularizar_idempotent (rows : List ReportRow) :
    circularizar (dropDuplicates rows) = circularizar rows := by
  unfold circularizar
  rw [dropDuplicates_idem]

/-- C9: if the seller's `emailTo` list is empty after cleaning,
`enviar_email` logs a warning, performs no send and returns normally. -/
theorem enviar_email_empty_to (seller : Seller)
    (h : limpar_emails seller.emailTo = []) :
    enviar_email seller = EmailOutcome.warnedNoRecipients := by
  show (if limpar_emails seller.emailTo = [] then EmailOutcome.warnedNoRecipients
        else EmailOutcome.sent (limpar_emails seller.emailTo)
          (limpar_emails seller.emailCc)) = EmailOutcome.warnedNoRecipients
  rw [if_pos h]

/-- Witness for C9: a seller whose `emailTo` entries are all empty,
whitespace-only or the literal "nan" triggers the warning path. -/
theorem enviar_email_empty_to_witness :
    enviar_email ⟨"farmaconde", "Farma Conde", ["", ""], ["cc@x.com"]⟩ =
      EmailOutcome.warnedNoRecipients :=
  enviar_email_empty_to _ (by decide)

/-- C10: `formatar_data_curta` is total on string-or-None input — `None` and
the empty string map to the empty string, a string the ISO parser rejects is
returned unchanged instead of raising, and a string parsed to an instant `t`
is rendered dd/mm/yyyy at the UTC-3 wall clock of `t`. -/
theorem formatar_data_curta_total (parse : String → Option Int) (s : String) (t : Int) :
    formatar_data_curta parse none = "" ∧
    formatar_data_curta parse (some "") = "" ∧
    (s ≠ "" → parse (s.replace "Z" "+00:00") = none →
      formatar_data_curta parse (some s) = s) ∧
    (s ≠ "" → parse (s.replace "Z" "+00:00") = some t →
      formatar_data_curta parse (some s) =
        renderDate (civilFromDays ((t - 10800) / 86400))) := by
  refine ⟨rfl, rfl, fun hs hp => ?_, fun hs hp => ?_⟩
  · show (if s = "" then "" else
      match parse (s.replace "Z" "+00:00") with
      | none => s
      | some t2 => renderDate (civilFromDays ((t2 - 10800) / 86400))) = s
    rw [if_neg hs, hp]
  · show (if s = "" then "" else
      match parse (s.replace "Z" "+00:00") with
      | none => s
      | some t2 => renderDate (civilFromDays ((t2 - 10800) / 86400))) =
        renderDate (civilFromDays ((t - 10800) / 86400))
    rw [if_neg hs, hp]

/-- Witness for C10: a rejected string comes back unchanged, a parsed
instant is rendered in UTC-3, and `None` maps to the empty string. -/
theorem formatar_data_curta_total_witness :
    formatar_data_curta pFail (some "not-a-date") = "not-a-date" ∧
    formatar_data_curta pOk (some "2024-06-28T12:00:00Z") = "28/06/2024" ∧
    formatar_data_curta pFail none = "" := by
  refine ⟨(formatar_data_curta_total pFail "not-a-date" 0).2.2.1 (by decide) rfl, ?_,
    (formatar_data_curta_total pFail "x" 0).1⟩
  have h := (formatar_data_curta_total pOk "2024-06-28T12:00:00Z" tOk).2.2.2
    (by decide) rfl
  rw [h]
  decide
